import Mathlib

/-!
Shallow embedding of the demo-fasthtml chat application.

The repository has three source files:
* `index.py` — the web app: a global mutable list `chat` seeded with two
  turns, a rendering function `messages_to_fh`, and a `POST /geo-chat`
  handler `post` that gates on `len(message) > 5`, appends a user turn,
  appends the resolver's bot turn, and returns the re-rendered chatbox.
* `localisation.py` — `get_answer`, which invokes an external LLM chain and
  wraps the structured result as a bot-turn dict.
* `map.py` — `get_map_with_marker`, which builds a Plotly map widget: a
  container div with a fresh id and a script invoking
  `Plotly.newPlot(id, data, layout)`.

Modelling choices:
* Python dicts `{"role": ..., "message": ..., "lat": ..., "lon": ...}` become
  the record `Turn` with `Option ℚ` coordinates (user turns have no lat/lon
  keys, hence `none`). Coordinates are only stored and copied, never
  computed with, so ℚ is a faithful carrier for the float literals.
* The external LLM chain (`chain.invoke`) is an effect outside the program;
  it is passed in as a `resolver` parameter returning `Except` (a raised
  exception on the Python side is the `.error` case).
* `uuid4()` is nondeterministic; it is passed in as a supply `fresh : ℕ → String`
  indexed by position in the rendered message list.
* A raised Python exception aborts the request but leaves the global `chat`
  list in whatever state the executed appends produced; `post` therefore
  returns the final state of `chat` together with `Except` for the response.
* FastHTML trees are modelled by the inductive `Html`; the Plotly script
  (an f-string in the source) is modelled structurally as a `plotScript`
  node holding the target id, the data traces and the map layout, exactly
  the three arguments of `Plotly.newPlot`.
-/

/-- `localisation.py`: the pydantic schema `LocalisationAnswer`
(`answer : str`, `lat : float`, `lon : float`). -/
structure LocalisationAnswer where
  answer : String
  lat : ℚ
  lon : ℚ
  deriving DecidableEq, Repr

/-- A conversation turn, as the Python dicts store it: a `role` string,
a `message`, and optional coordinates (absent keys are `none`). -/
structure Turn where
  role : String
  message : String
  lat : Option ℚ := none
  lon : Option ℚ := none
  deriving DecidableEq, Repr

/-- Plotly marker style, from the `marker` dict in `map.py`. -/
structure PlotMarker where
  size : ℕ
  color : String
  deriving DecidableEq, Repr

/-- One Plotly data trace, from the `data` list in `map.py`. -/
structure PlotTrace where
  type : String
  lat : List ℚ
  lon : List ℚ
  mode : String
  marker : PlotMarker
  text : List String
  deriving DecidableEq, Repr

/-- The map centre, from `layout["map"]["center"]` in `map.py`. -/
structure PlotCenter where
  lat : ℚ
  lon : ℚ
  deriving DecidableEq, Repr

/-- The `layout["map"]` dict in `map.py`. -/
structure PlotMapLayout where
  center : PlotCenter
  bearing : ℤ
  zoom : ℕ
  pitch : ℤ
  deriving DecidableEq, Repr

/-- A rendered HTML fragment. `el tag idAttr cls children` models a FastHTML
element with its `id=` and `cls=` attributes; `plotScript` models the
`Script(f"Plotly.newPlot('{id}', data, layout)")` invocation structurally,
keeping its three arguments. -/
inductive Html where
  | text (s : String)
  | el (tag : String) (idAttr : Option String) (cls : Option String)
      (children : List Html)
  | plotScript (targetId : String) (data : List PlotTrace)
      (layoutMap : PlotMapLayout)
  deriving Repr

/-- `map.py` lines 6–41, `get_map_with_marker(lat, lon)`: build the data
trace (single point marker, size 20, color `#EE4823`, text `Miam`), the
layout (centre at the same coordinates, bearing 0, zoom 2, pitch 0), draw a
fresh id, and return a div holding the container div and the script. The
fresh uuid is passed in as `id_div`. -/
def get_map_with_marker (id_div : String) (lat lon : ℚ) : Html :=
  let data : List PlotTrace :=
    [{ type := "scattermap"
       lat := [lat]
       lon := [lon]
       mode := "markers"
       marker := { size := 20, color := "#EE4823" }
       text := ["Miam"] }]
  let layout : PlotMapLayout :=
    { center := { lat := lat, lon := lon }
      bearing := 0
      zoom := 2
      pitch := 0 }
  .el "div" none none
    [.el "div" (some id_div) (some "map") [],
     .plotScript id_div data layout]

/-- `index.py` lines 36–44: the seeded global `chat` list. -/
def chat : List Turn :=
  [{ role := "user", message := "Bonjour, où est né Martin Luther King ?" },
   { role := "bot"
     message := "Martin Luther King est né à Atlanta, en Géorgie."
     lat := some ((33749 : ℚ) / 1000)
     lon := some ((-84388 : ℚ) / 1000) }]

/-- Render one turn (`index.py` lines 49–68, the loop body of
`messages_to_fh`). A `"user"` turn becomes a plain nested div; any other
turn is rendered as a bot turn and reads `message["lat"]` / `message["lon"]`,
which raises `KeyError` (modelled by `none`) when a key is absent. -/
def turn_to_fh (freshId : String) (t : Turn) : Option Html :=
  if t.role = "user" then
    some (.el "div" none (some "container chat-user")
      [.el "div" none none [.text t.message]])
  else
    match t.lat, t.lon with
    | some la, some lo =>
        some (.el "div" none (some "container chat-bot")
          [.el "div" none none
            [.el "p" none none [.text t.message],
             get_map_with_marker freshId la lo]])
    | _, _ => none

/-- The loop of `messages_to_fh`, carrying the position index used to draw
fresh ids from the supply. -/
def messages_to_fh_from (fresh : ℕ → String) : ℕ → List Turn → Option (List Html)
  | _, [] => some []
  | n, t :: ts => do
      let h ← turn_to_fh (fresh n) t
      let rest ← messages_to_fh_from fresh (n + 1) ts
      pure (h :: rest)

/-- `index.py` lines 47–69, `messages_to_fh(messages)`: render every turn in
order. `none` models a `KeyError` escaping the loop. -/
def messages_to_fh (fresh : ℕ → String) (messages : List Turn) :
    Option (List Html) :=
  messages_to_fh_from fresh 0 messages

/-- `localisation.py` lines 34–43, `get_answer(question)`: invoke the chain
(here the `resolver` parameter; a raised exception is `.error`) and wrap the
structured answer as a bot-turn dict. -/
def get_answer (resolver : String → Except String LocalisationAnswer)
    (question : String) : Except String Turn :=
  match resolver question with
  | .error e => .error e
  | .ok l =>
      .ok { role := "bot", message := l.answer
            lat := some l.lat, lon := some l.lon }

/-- How a `POST /geo-chat` request can fail: a propagated resolver exception,
or a `KeyError` while rendering. -/
inductive ReqError where
  | resolverError (e : String)
  | renderError
  deriving DecidableEq, Repr

/-- `index.py` lines 104–110, the `POST /geo-chat` handler, over an explicit
log state `log` (the value of the global `chat` when the request starts).
If `len(message) > 5`, append the user turn, then evaluate
`localisation.get_answer(message)` — if it raises, the request dies *after*
the user turn was appended — and append the resulting bot turn. Finally
render the chatbox div over the current log. Returns the final state of the
global log together with the response (or the propagated error). -/
def post (resolver : String → Except String LocalisationAnswer)
    (fresh : ℕ → String) (log : List Turn) (message : String) :
    List Turn × Except ReqError Html :=
  if message.length > 5 then
    let log1 := log ++ [{ role := "user", message := message }]
    match get_answer resolver message with
    | .error e => (log1, .error (.resolverError e))
    | .ok botTurn =>
        let log2 := log1 ++ [botTurn]
        match messages_to_fh fresh log2 with
        | none => (log2, .error .renderError)
        | some hs => (log2, .ok (.el "div" (some "chatbox") none hs))
  else
    match messages_to_fh fresh log with
    | none => (log, .error .renderError)
    | some hs => (log, .ok (.el "div" (some "chatbox") none hs))

/-- Run a sequence of `POST /geo-chat` requests, threading the global log. -/
def run_posts (resolver : String → Except String LocalisationAnswer)
    (fresh : ℕ → String) : List Turn → List String → List Turn
  | log, [] => log
  | log, m :: ms => run_posts resolver fresh (post resolver fresh log m).1 ms

/-- One charting-library invocation embedded in a page: the three arguments
of `Plotly.newPlot`. -/
structure PlotCall where
  targetId : String
  data : List PlotTrace
  layoutMap : PlotMapLayout
  deriving DecidableEq, Repr

mutual

/-- All charting-library script invocations embedded in a fragment, in
document order. -/
def Html.plots : Html → List PlotCall
  | .text _ => []
  | .el _ _ _ children => plotsList children
  | .plotScript i d l => [{ targetId := i, data := d, layoutMap := l }]

/-- `Html.plots` over a list of fragments. -/
def plotsList : List Html → List PlotCall
  | [] => []
  | h :: hs => h.plots ++ plotsList hs

end

mutual

/-- All `id=` attributes of elements in a fragment, in document order. -/
def Html.divIds : Html → List String
  | .text _ => []
  | .el _ idAttr _ children =>
      (match idAttr with | some i => [i] | none => []) ++ divIdsList children
  | .plotScript _ _ _ => []

/-- `Html.divIds` over a list of fragments. -/
def divIdsList : List Html → List String
  | [] => []
  | h :: hs => h.divIds ++ divIdsList hs

end

/-- The data-model invariant on a stored turn: a `bot` turn carries both
coordinates; a `user` turn carries only role and message (no lat/lon keys). -/
def Turn.wf (t : Turn) : Prop :=
  (t.role = "bot" ∧ t.lat.isSome ∧ t.lon.isSome) ∨
  (t.role = "user" ∧ t.lat = none ∧ t.lon = none)

instance (t : Turn) : Decidable t.wf := by
  unfold Turn.wf; infer_instance

/-- A resolver standing for an external call that always raises. -/
def failResolver : String → Except String LocalisationAnswer :=
  fun _ => .error "boom"

/-- A resolver standing for an external call that always succeeds with a
fixed structured answer. -/
def okResolver (l : LocalisationAnswer) :
    String → Except String LocalisationAnswer :=
  fun _ => .ok l

/-- A concrete deterministic id supply, standing in for `uuid4`. -/
def numFresh : ℕ → String := fun n => toString n

/-- The scenario input from the spec (also the seeded user message). -/
def mlkQuestion : String := "Bonjour, où est né Martin Luther King ?"

/-- The scenario resolver result from the spec. -/
def mlkAnswer : LocalisationAnswer :=
  { answer := "Martin Luther King est né à Atlanta, en Géorgie."
    lat := (33749 : ℚ) / 1000
    lon := (-84388 : ℚ) / 1000 }

/-- A sample structured answer used in concrete witnesses. -/
def sampleAnswer : LocalisationAnswer := { answer := "A", lat := 1, lon := 2 }

/-- Helper: whatever the gate, resolver outcome and rendering outcome, the
log after one `POST /geo-chat` extends the log before it. -/
theorem post_fst_extends (resolver : String → Except String LocalisationAnswer)
    (fresh : ℕ → String) (log : List Turn) (message : String) :
    ∃ rest, (post resolver fresh log message).1 = log ++ rest := by
  unfold post
  split
  · split
    · exact ⟨_, rfl⟩
    · dsimp only
      split
      · exact ⟨_, by rw [List.append_assoc]⟩
      · exact ⟨_, by rw [List.append_assoc]⟩
  · split
    · exact ⟨[], by simp⟩
    · exact ⟨[], by simp⟩

/-- Helper: a sequence of `POST /geo-chat` requests only ever extends the
log it starts from. -/
theorem run_posts_extends (resolver : String → Except String LocalisationAnswer)
    (fresh : ℕ → String) (msgs : List String) (log : List Turn) :
    ∃ rest, run_posts resolver fresh log msgs = log ++ rest := by
  induction msgs generalizing log with
  | nil => exact ⟨[], by simp [run_posts]⟩
  | cons m ms ih =>
      obtain ⟨r1, hr1⟩ := post_fst_extends resolver fresh log m
      obtain ⟨r2, hr2⟩ := ih (post resolver fresh log m).1
      exact ⟨r1 ++ r2, by rw [run_posts, hr2, hr1, List.append_assoc]⟩

/-- C1: For every `POST /geo-chat` request whose form field `message` has
length strictly greater than 5 and whose resolver call succeeds, exactly two
turns are appended to the conversation log: first a turn with role `user`
and the literal input text as its message, then a turn with role `bot`
carrying the resolver's `answer` as message and the resolver's `lat` and
`lon` fields. -/
theorem geoChat_post_success_appends_user_then_bot
    (resolver : String → Except String LocalisationAnswer)
    (fresh : ℕ → String) (log : List Turn) (message : String)
    (l : LocalisationAnswer)
    (hlen : message.length > 5) (hres : resolver message = .ok l) :
    (post resolver fresh log message).1 =
      log ++ [{ role := "user", message := message },
              { role := "bot", message := l.answer
                lat := some l.lat, lon := some l.lon }] := by
  unfold post
  rw [if_pos hlen]
  unfold get_answer
  rw [hres]
  dsimp only
  split <;> simp

/-- Witness for C1 at the concrete input `"headof"` (length 6) with a
resolver that returns `sampleAnswer`. -/
theorem geoChat_post_success_appends_user_then_bot_witness :
    (post (okResolver sampleAnswer) numFresh chat "headof").1 =
      chat ++ [{ role := "user", message := "headof" },
               { role := "bot", message := "A", lat := some 1, lon := some 2 }] :=
  geoChat_post_success_appends_user_then_bot (okResolver sampleAnswer) numFresh
    chat "headof" sampleAnswer (by decide) rfl

/-- C2: For every `POST /geo-chat` request whose form field `message` has
length at most 5, the conversation log is left completely unchanged and the
resolver is not invoked (the outcome does not depend on the resolver at
all). -/
theorem geoChat_post_short_input_leaves_log_unchanged
    (resolver : String → Except String LocalisationAnswer)
    (fresh : ℕ → String) (log : List Turn) (message : String)
    (hlen : message.length ≤ 5) :
    (post resolver fresh log message).1 = log ∧
    ∀ r2 : String → Except String LocalisationAnswer,
      post resolver fresh log message = post r2 fresh log message := by
  have h : ¬(message.length > 5) := not_lt.mpr hlen
  constructor
  · unfold post
    rw [if_neg h]
    split <;> rfl
  · intro r2
    unfold post
    rw [if_neg h, if_neg h]

/-- Witness for C2 at the concrete input `"Hi"` (length 2). -/
theorem geoChat_post_short_input_leaves_log_unchanged_witness :
    (post failResolver numFresh chat "Hi").1 = chat ∧
    ∀ r2 : String → Except String LocalisationAnswer,
      post failResolver numFresh chat "Hi" = post r2 numFresh chat "Hi" :=
  geoChat_post_short_input_leaves_log_unchanged failResolver numFresh chat "Hi"
    (by decide)

/-- Counterexample to C3: with the length gate passed and a resolver that
raises, the conversation log after the request is NOT in the same state as
before it — the user turn appended before the resolver call survives the
failure. -/
theorem geoChat_post_resolver_error_log_changed_cex :
    (post failResolver numFresh chat "Where is Paris ?").1 ≠ chat := by
  have he : (post failResolver numFresh chat "Where is Paris ?").1 =
      chat ++ [{ role := "user", message := "Where is Paris ?" }] := by
    unfold post
    rw [if_pos (by decide : "Where is Paris ?".length > 5)]
    rfl
  rw [he]
  intro h
  have h2 := congrArg List.length h
  simp at h2

/-- C3 (amended): For every `POST /geo-chat` request with input length
greater than 5 where the resolver call raises, the request fails with a
propagated error and no bot turn (partially constructed or otherwise) is
appended; but the append-pair is not atomic: the user turn appended before
the resolver call remains, so the log afterwards is exactly the prior log
with the single user turn appended. -/
theorem geoChat_post_resolver_error_appends_only_user_turn
    (resolver : String → Except String LocalisationAnswer)
    (fresh : ℕ → String) (log : List Turn) (message : String) (e : String)
    (hlen : message.length > 5) (hres : resolver message = .error e) :
    post resolver fresh log message =
      (log ++ [{ role := "user", message := message }],
       .error (.resolverError e)) := by
  unfold post
  rw [if_pos hlen]
  unfold get_answer
  rw [hres]

/-- Witness for the amended C3 at the concrete input `"Where is Paris ?"`
with the always-raising resolver. -/
theorem geoChat_post_resolver_error_appends_only_user_turn_witness :
    post failResolver numFresh chat "Where is Paris ?" =
      (chat ++ [{ role := "user", message := "Where is Paris ?" }],
       .error (.resolverError "boom")) :=
  geoChat_post_resolver_error_appends_only_user_turn failResolver numFresh chat
    "Where is Paris ?" "boom" (by decide) rfl

/-- C4: The conversation log is append-only — any sequence of
`POST /geo-chat` requests only ever extends the log it starts from, so every
turn already in the log survives unmutated, in its original position and
order, and reading the log afterwards returns the old turns followed by the
appended ones. -/
theorem conversationLog_append_only
    (resolver : String → Except String LocalisationAnswer)
    (fresh : ℕ → String) (msgs : List String) (log : List Turn) :
    (∃ rest, run_posts resolver fresh log msgs = log ++ rest) ∧
    ∀ i, (hi : i < log.length) →
      (run_posts resolver fresh log msgs)[i]? = log[i]? := by
  obtain ⟨rest, hrest⟩ := run_posts_extends resolver fresh msgs log
  refine ⟨⟨rest, hrest⟩, ?_⟩
  intro i hi
  rw [hrest, List.getElem?_append_left hi]

/-- Witness for C4: after a request, the first seeded turn is still read
back unchanged at position 0. -/
theorem conversationLog_append_only_witness :
    (run_posts failResolver numFresh chat ["Hi"])[0]? = chat[0]? :=
  (conversationLog_append_only failResolver numFresh ["Hi"] chat).2 0 (by decide)

/-- Helper: every bot turn produced by `get_answer` satisfies the data-model
invariant. -/
theorem get_answer_ok_wf (resolver : String → Except String LocalisationAnswer)
    (q : String) (t : Turn) (h : get_answer resolver q = .ok t) : t.wf := by
  unfold get_answer at h
  split at h
  · exact absurd h (by simp)
  · cases h
    exact Or.inl ⟨rfl, rfl, rfl⟩

/-- Helper: one `POST /geo-chat` request preserves the data-model invariant
on every turn of the log. -/
theorem post_preserves_wf (resolver : String → Except String LocalisationAnswer)
    (fresh : ℕ → String) (log : List Turn) (message : String)
    (hw : ∀ t ∈ log, t.wf) :
    ∀ t ∈ (post resolver fresh log message).1, t.wf := by
  intro t ht
  unfold post at ht
  split at ht
  · rcases hres : get_answer resolver message with e | botTurn <;> rw [hres] at ht
    · dsimp only at ht
      rcases List.mem_append.mp ht with h1 | h1
      · exact hw t h1
      · rcases List.mem_singleton.mp h1 with rfl
        exact Or.inr ⟨rfl, rfl, rfl⟩
    · dsimp only at ht
      split at ht <;> dsimp only at ht <;>
        rcases List.mem_append.mp ht with h1 | h1
      · rcases List.mem_append.mp h1 with h2 | h2
        · exact hw t h2
        · rcases List.mem_singleton.mp h2 with rfl
          exact Or.inr ⟨rfl, rfl, rfl⟩
      · rcases List.mem_singleton.mp h1 with rfl
        exact get_answer_ok_wf resolver message t hres
      · rcases List.mem_append.mp h1 with h2 | h2
        · exact hw t h2
        · rcases List.mem_singleton.mp h2 with rfl
          exact Or.inr ⟨rfl, rfl, rfl⟩
      · rcases List.mem_singleton.mp h1 with rfl
        exact get_answer_ok_wf resolver message t hres
  · split at ht <;> exact hw t ht

/-- Helper: the seeded log satisfies the data-model invariant. -/
theorem chat_wf : ∀ t ∈ chat, t.wf := by decide

/-- C5: Every turn ever present in the conversation log — seeded or produced
by any sequence of `POST /geo-chat` requests — has `lat` and `lon` exactly
when its role is `bot`: user turns carry only role and message, bot turns
carry both coordinates. -/
theorem conversationLog_lat_lon_iff_bot
    (resolver : String → Except String LocalisationAnswer)
    (fresh : ℕ → String) (msgs : List String) :
    ∀ t ∈ run_posts resolver fresh chat msgs, t.wf := by
  have key : ∀ (ms : List String) (log : List Turn), (∀ t ∈ log, t.wf) →
      ∀ t ∈ run_posts resolver fresh log ms, t.wf := by
    intro ms
    induction ms with
    | nil => intro log hw; simpa [run_posts] using hw
    | cons m ms2 ih =>
        intro log hw
        rw [run_posts]
        exact ih _ (post_preserves_wf resolver fresh log m hw)
  exact key msgs chat chat_wf

/-- Witness for C5: the seeded user turn, still in the log after a request,
satisfies the invariant. -/
theorem conversationLog_lat_lon_iff_bot_witness :
    Turn.wf { role := "user", message := "Bonjour, où est né Martin Luther King ?" } :=
  conversationLog_lat_lon_iff_bot failResolver numFresh []
    { role := "user", message := "Bonjour, où est né Martin Luther King ?" }
    (List.mem_cons_self _ _)

/-- C6: For every `POST /geo-chat` request whose input fails the length gate
(such as the 2-character `"Hi"`), the conversation log is unchanged and the
response nevertheless renders the current log in full, exactly as it was
before the request. -/
theorem geoChat_post_short_input_renders_current_log
    (resolver : String → Except String LocalisationAnswer)
    (fresh : ℕ → String) (log : List Turn) (message : String)
    (hs : List Html)
    (hlen : message.length ≤ 5) (hrender : messages_to_fh fresh log = some hs) :
    post resolver fresh log message =
      (log, .ok (.el "div" (some "chatbox") none hs)) := by
  unfold post
  rw [if_neg (not_lt.mpr hlen), hrender]

/-- Witness for C6 at the concrete input `"Hi"` over the empty log. -/
theorem geoChat_post_short_input_renders_current_log_witness :
    post failResolver numFresh [] "Hi" =
      ([], .ok (.el "div" (some "chatbox") none [])) :=
  geoChat_post_short_input_renders_current_log failResolver numFresh [] "Hi" []
    (by decide) rfl

/-- C7: For the specific input `"Bonjour, où est né Martin Luther King ?"`
with the resolver returning the answer
`"Martin Luther King est né à Atlanta, en Géorgie."` at latitude 33.7490 and
longitude -84.3880, the handler appends exactly two turns matching that
content, the user turn immediately followed by the bot turn. -/
theorem geoChat_post_mlk_scenario
    (resolver : String → Except String LocalisationAnswer)
    (fresh : ℕ → String) (log : List Turn)
    (hres : resolver mlkQuestion = .ok mlkAnswer) :
    (post resolver fresh log mlkQuestion).1 =
      log ++ [{ role := "user", message := mlkQuestion },
              { role := "bot"
                message := "Martin Luther King est né à Atlanta, en Géorgie."
                lat := some ((33749 : ℚ) / 1000)
                lon := some ((-84388 : ℚ) / 1000) }] := by
  unfold post
  rw [if_pos (by decide : mlkQuestion.length > 5)]
  unfold get_answer
  rw [hres]
  dsimp only
  split <;> simp [mlkAnswer]

/-- Witness for C7 with a resolver fixed to the scenario's structured
answer, starting from the seeded log. -/
theorem geoChat_post_mlk_scenario_witness :
    (post (okResolver mlkAnswer) numFresh chat mlkQuestion).1 =
      chat ++ [{ role := "user", message := mlkQuestion },
               { role := "bot"
                 message := "Martin Luther King est né à Atlanta, en Géorgie."
                 lat := some ((33749 : ℚ) / 1000)
                 lon := some ((-84388 : ℚ) / 1000) }] :=
  geoChat_post_mlk_scenario (okResolver mlkAnswer) numFresh chat rfl

/-- C8: For every bot turn that is rendered, the fragment embeds exactly one
charting-library script invocation whose dataset is a single point marker at
that turn's coordinates, with marker size 20, marker color `#EE4823` and
initial zoom level 2; a rendered user turn embeds no such invocation. -/
theorem renderedTurn_plot_invocations (i : String) (t : Turn) (h : Html)
    (hrender : turn_to_fh i t = some h) :
    (t.role = "user" → h.plots = []) ∧
    (t.role = "bot" →
      ∃ la lo, t.lat = some la ∧ t.lon = some lo ∧
        h.plots = [{ targetId := i
                     data := [{ type := "scattermap", lat := [la], lon := [lo]
                                mode := "markers"
                                marker := { size := 20, color := "#EE4823" }
                                text := ["Miam"] }]
                     layoutMap := { center := { lat := la, lon := lo }
                                    bearing := 0, zoom := 2, pitch := 0 } }]) := by
  unfold turn_to_fh at hrender
  split at hrender
  case isTrue hu =>
    cases hrender
    refine ⟨fun _ => rfl, fun hb => ?_⟩
    rw [hu] at hb
    exact absurd hb (by decide)
  case isFalse hu =>
    split at hrender
    case h_1 la lo hla hlo =>
      cases hrender
      refine ⟨fun hu2 => absurd hu2 hu, fun _ => ⟨la, lo, hla, hlo, ?_⟩⟩
      simp [Html.plots, plotsList, get_map_with_marker]
    case h_2 =>
      exact absurd hrender (by simp)

/-- Witness for C8 on a concrete rendered bot turn at latitude 1,
longitude 2 with id `"m0"`. -/
theorem renderedTurn_plot_invocations_witness :
    (Turn.role { role := "bot", message := "A", lat := some 1, lon := some 2 } = "user" →
      Html.plots (.el "div" none (some "container chat-bot")
        [.el "div" none none
          [.el "p" none none [.text "A"], get_map_with_marker "m0" 1 2]]) = []) ∧
    (Turn.role { role := "bot", message := "A", lat := some 1, lon := some 2 } = "bot" →
      ∃ la lo,
        Turn.lat { role := "bot", message := "A", lat := some 1, lon := some 2 } = some la ∧
        Turn.lon { role := "bot", message := "A", lat := some 1, lon := some 2 } = some lo ∧
        Html.plots (.el "div" none (some "container chat-bot")
          [.el "div" none none
            [.el "p" none none [.text "A"], get_map_with_marker "m0" 1 2]]) =
          [{ targetId := "m0"
             data := [{ type := "scattermap", lat := [la], lon := [lo]
                        mode := "markers"
                        marker := { size := 20, color := "#EE4823" }
                        text := ["Miam"] }]
             layoutMap := { center := { lat := la, lon := lo }
                            bearing := 0, zoom := 2, pitch := 0 } }]) :=
  renderedTurn_plot_invocations "m0"
    { role := "bot", message := "A", lat := some 1, lon := some 2 }
    (.el "div" none (some "container chat-bot")
      [.el "div" none none
        [.el "p" none none [.text "A"], get_map_with_marker "m0" 1 2]])
    rfl

/-- C9: At process start the conversation log is pre-seeded with exactly two
turns — a user turn with the Martin Luther King question followed by a bot
turn with the Atlanta answer at latitude 33.7490 / longitude -84.3880 — and
every later sequence of requests only extends this seeded sequence. -/
theorem conversationLog_seeded
    (resolver : String → Except String LocalisationAnswer)
    (fresh : ℕ → String) (msgs : List String) :
    (∃ u b, chat = [u, b] ∧
      u.role = "user" ∧ u.message = "Bonjour, où est né Martin Luther King ?" ∧
      u.lat = none ∧ u.lon = none ∧
      b.role = "bot" ∧
      b.message = "Martin Luther King est né à Atlanta, en Géorgie." ∧
      b.lat = some ((33749 : ℚ) / 1000) ∧ b.lon = some ((-84388 : ℚ) / 1000)) ∧
    ∃ rest, run_posts resolver fresh chat msgs = chat ++ rest := by
  exact ⟨⟨_, _, rfl, rfl, rfl, rfl, rfl, rfl, rfl, rfl, rfl⟩,
    run_posts_extends resolver fresh msgs chat⟩

/-- C10: Every map widget centres its layout at exactly the marker's
coordinates, with bearing 0 and pitch 0, and the embedded script's plot
target id is exactly the id of the container div emitted alongside it. -/
theorem mapWidget_center_matches_marker (i : String) (la lo : ℚ) :
    ∃ p : PlotCall,
      Html.plots (get_map_with_marker i la lo) = [p] ∧
      Html.divIds (get_map_with_marker i la lo) = [i] ∧
      p.targetId = i ∧
      p.layoutMap.center.lat = la ∧ p.layoutMap.center.lon = lo ∧
      (∀ tr ∈ p.data, tr.lat = [la] ∧ tr.lon = [lo]) ∧
      p.layoutMap.bearing = 0 ∧ p.layoutMap.pitch = 0 := by
  refine ⟨{ targetId := i
            data := [{ type := "scattermap", lat := [la], lon := [lo]
                       mode := "markers"
                       marker := { size := 20, color := "#EE4823" }
                       text := ["Miam"] }]
            layoutMap := { center := { lat := la, lon := lo }
                           bearing := 0, zoom := 2, pitch := 0 } },
         ?_, ?_, rfl, rfl, rfl, ?_, rfl, rfl⟩
  · simp [Html.plots, plotsList, get_map_with_marker]
  · simp [Html.divIds, divIdsList, get_map_with_marker]
  · intro tr htr
    rcases List.mem_singleton.mp htr with rfl
    exact ⟨rfl, rfl⟩

/-- Witness for C9 with the failing resolver and no requests. -/
theorem conversationLog_seeded_witness :
    (∃ u b, chat = [u, b] ∧
      u.role = "user" ∧ u.message = "Bonjour, où est né Martin Luther King ?" ∧
      u.lat = none ∧ u.lon = none ∧
      b.role = "bot" ∧
      b.message = "Martin Luther King est né à Atlanta, en Géorgie." ∧
      b.lat = some ((33749 : ℚ) / 1000) ∧ b.lon = some ((-84388 : ℚ) / 1000)) ∧
    ∃ rest, run_posts failResolver numFresh chat [] = chat ++ rest :=
  conversationLog_seeded failResolver numFresh []

/-- Witness for C10 at id `"m1"`, latitude 3, longitude 4. -/
theorem mapWidget_center_matches_marker_witness :
    ∃ p : PlotCall,
      Html.plots (get_map_with_marker "m1" 3 4) = [p] ∧
      Html.divIds (get_map_with_marker "m1" 3 4) = ["m1"] ∧
      p.targetId = "m1" ∧
      p.layoutMap.center.lat = 3 ∧ p.layoutMap.center.lon = 4 ∧
      (∀ tr ∈ p.data, tr.lat = [3] ∧ tr.lon = [4]) ∧
      p.layoutMap.bearing = 0 ∧ p.layoutMap.pitch = 0 :=
  mapWidget_center_matches_marker "m1" 3 4
